import Mathlib

/-!
Shallow embedding of `src/client/src/components/EditableCommit.js`, a React
component that renders a single editable form for a version-control commit
(ID, author, date, free-text message) and propagates message edits upward
via a caller-supplied `onChange` callback.

Modelling conventions:
- A JS object field that may be absent (`undefined`) or hold a string is an
  `Option String`; `none` models an absent property, `some ""` an empty string.
- JS truthiness of such a field (`if (commit.author_email)`, `if (!date)`)
  is `jsTruthy`: `undefined` and `""` are falsy, all other strings truthy.
- the JS join of the author parts array with a space separator is `joinSpace`
  (an absent `commit.author` element stringifies to `""` inside `join`,
  hence the `Option.getD ""` at the point the element enters the array).
- The in-place mutation performed by `handleChangeMessage`, and its calls
  to `this.props.onChange`, are made explicit: the handler returns the
  updated commit together with the ordered list of arguments passed to
  `onChange` during the invocation.
- `render` is the pure function from the `commit` prop to the four
  user-visible text values of the form (ID, author, date, message); the
  component defines no internal state (`React.createClass` with no
  `getInitialState`), so `render` takes nothing but the commit.
-/

namespace EditableCommit

/-- The placeholder literal, line 7 of the source: `var UNKNOWN = <unknown>` (a six-character JS string literal in angle brackets). -/
def UNKNOWN : String := "<unknown>"

/-- A commit record as consumed by the component (spec §3). `node` is the
revision identifier; the other fields are optional strings where `none`
models an absent (`undefined`) JS property. -/
structure Commit where
  node : String
  author : Option String
  author_email : Option String
  date : Option String
  message : Option String
deriving DecidableEq, Repr

/-- JavaScript truthiness of an optional string field: `undefined` and the
empty string are falsy; every other string is truthy. -/
def jsTruthy (s : Option String) : Bool :=
  match s with
  | none => false
  | some s => s != ""

/-- The JS array join with a space separator, on a list of strings. -/
def joinSpace : List String → String
  | [] => ""
  | [s] => s
  | s :: rest => s ++ " " ++ joinSpace rest

/-- Lines 19-27 of the source: build the author display string.
build the array `[commit.author]`, push the angle-bracketed email when
`commit.author_email` is truthy, join with a space, and fall back to
`UNKNOWN` when the joined string is falsy. -/
def authorDisplay (commit : Commit) : String :=
  let author := [commit.author.getD ""]
  let author :=
    if jsTruthy commit.author_email then
      author ++ ["<" ++ commit.author_email.getD "" ++ ">"]
    else
      author
  let author := joinSpace author
  if author = "" then UNKNOWN else author

/-- Lines 29-32 of the source: `var date = commit.date; if (!date) date =
UNKNOWN;` (absent and empty dates both fall back to the placeholder). -/
def dateDisplay (commit : Commit) : String :=
  if jsTruthy commit.date then commit.date.getD "" else UNKNOWN

/-- The four user-visible text values produced by one call to `render`. -/
structure RenderedForm where
  idText : String
  authorText : String
  dateText : String
  messageText : String
deriving DecidableEq, Repr

/-- Lines 17-58 of the source: the `render` method of the component. The ID field shows
`commit.node` verbatim, the author and date fields show the derived display
strings, and the controlled textarea value is `this.props.commit.message`
(an absent message renders as the empty textarea). A total function: there
is no failure branch. -/
def render (commit : Commit) : RenderedForm :=
  { idText := commit.node
    authorText := authorDisplay commit
    dateText := dateDisplay commit
    messageText := commit.message.getD "" }

/-- Lines 10-15 of the source: `handleChangeMessage` reads the new text from
the event, mutates `this.props.commit.message` in place, then calls
`this.props.onChange(commit)`. The result pairs the updated commit with the
ordered list of commit values passed to `onChange` during the invocation. -/
def handleChangeMessage (commit : Commit) (message : String) :
    Commit × List Commit :=
  let commit := { commit with message := some message }
  (commit, [commit])

/-- Helper: a string of the form `a ++ " " ++ b` is never empty. -/
theorem append_space_ne_empty (a b : String) : a ++ " " ++ b ≠ "" := by
  intro h
  have hlen := congrArg String.length h
  simp only [String.length_append] at hlen
  have hone : (" " : String).length = 1 := rfl
  have hzero : ("" : String).length = 0 := rfl
  omega

/-- Helper: regrouping the concatenation `a ++ " " ++ ("<" ++ e ++ ">")`
into `a ++ " <" ++ e ++ ">"`. -/
theorem append_space_angle (a e : String) :
    a ++ " " ++ ("<" ++ e ++ ">") = a ++ " <" ++ e ++ ">" := by
  have h : (" " : String) ++ "<" = " <" := rfl
  simp only [← String.append_assoc]
  rw [String.append_assoc a " " "<", h]

/-- C1: for every commit record and every new message text, the message-edit
handler sets `commit.message` to the new text and invokes `onChange` exactly
once (the list of callback calls is a singleton), passing the very commit
value it just updated, whose `message` field equals the new text. The handler
is a total function of any string, the empty string included: there is no
rejection path. -/
theorem handleChangeMessage_sets_and_notifies_once (commit : Commit)
    (message : String) :
    (handleChangeMessage commit message).2
        = [(handleChangeMessage commit message).1]
      ∧ ((handleChangeMessage commit message).1).message = some message :=
  ⟨rfl, rfl⟩

/-- C2: the message-edit handler leaves every field of the commit other than
`message` (`node`, `author`, `author_email`, `date`) unchanged; in particular
`node` is never written. -/
theorem handleChangeMessage_frame (commit : Commit) (message : String) :
    (handleChangeMessage commit message).1.node = commit.node
      ∧ (handleChangeMessage commit message).1.author = commit.author
      ∧ (handleChangeMessage commit message).1.author_email
          = commit.author_email
      ∧ (handleChangeMessage commit message).1.date = commit.date :=
  ⟨rfl, rfl, rfl, rfl⟩

/-- C3: for a commit with non-empty `author` and non-empty `author_email`,
the displayed author string is `author ++ " <" ++ author_email ++ ">"`
(author, a space, then the email in angle brackets). -/
theorem authorDisplay_author_and_email (commit : Commit) (a e : String)
    (ha : commit.author = some a) (hane : a ≠ "")
    (he : commit.author_email = some e) (hene : e ≠ "") :
    authorDisplay commit = a ++ " <" ++ e ++ ">" := by
  have hne : a ++ " <" ++ e ++ ">" ≠ "" := by
    rw [← append_space_angle]
    exact append_space_ne_empty a ("<" ++ e ++ ">")
  have ht : jsTruthy (some e) = true := by
    simp [jsTruthy, hene]
  have hjoin : joinSpace [a, "<" ++ e ++ ">"] = a ++ " " ++ ("<" ++ e ++ ">") :=
    rfl
  simp only [authorDisplay, ha, he, ht, if_true, Option.getD_some,
    List.singleton_append, hjoin, append_space_angle, if_neg hne]

/-- Helper: a field that is absent or empty is falsy. -/
theorem jsTruthy_eq_false (s : Option String) (h : s.getD "" = "") :
    jsTruthy s = false := by
  cases s with
  | none => rfl
  | some t =>
    simp only [Option.getD_some] at h
    simp [jsTruthy, h]

/-- Helper: with author and email both absent or empty, the author display
string falls back to the placeholder. -/
theorem authorDisplay_unknown_aux (commit : Commit)
    (ha : commit.author.getD "" = "") (he : commit.author_email.getD "" = "") :
    authorDisplay commit = UNKNOWN := by
  have ht := jsTruthy_eq_false commit.author_email he
  simp [authorDisplay, joinSpace, ht, ha]

/-- Helper: with an absent or empty date, the date display string falls back
to the placeholder. -/
theorem dateDisplay_unknown_aux (commit : Commit)
    (h : commit.date.getD "" = "") : dateDisplay commit = UNKNOWN := by
  have ht := jsTruthy_eq_false commit.date h
  simp [dateDisplay, ht]

/-- C4: for a commit with empty (or absent) `author` and empty (or absent)
`author_email`, the displayed author string is the literal placeholder
`"<unknown>"`. -/
theorem authorDisplay_unknown (commit : Commit)
    (ha : commit.author.getD "" = "") (he : commit.author_email.getD "" = "") :
    authorDisplay commit = UNKNOWN :=
  authorDisplay_unknown_aux commit ha he

/-- C5: for a commit with empty (or absent) `author` but non-empty
`author_email`, the displayed author string is a leading space followed by
the bracketed email, which is non-empty, so the placeholder branch is not
taken. -/
theorem authorDisplay_email_only (commit : Commit) (e : String)
    (ha : commit.author.getD "" = "")
    (he : commit.author_email = some e) (hene : e ≠ "") :
    authorDisplay commit = " <" ++ e ++ ">"
      ∧ (" <" ++ e ++ ">" : String) ≠ "" := by
  have h1 : (" " : String) ++ ("<" ++ e ++ ">") = " <" ++ e ++ ">" := by
    have h2 := append_space_angle "" e
    simpa using h2
  have hne : (" <" ++ e ++ ">" : String) ≠ "" := by
    rw [← h1]
    have h3 := append_space_ne_empty "" ("<" ++ e ++ ">")
    simpa using h3
  refine ⟨?_, hne⟩
  have ht : jsTruthy (some e) = true := by
    simp [jsTruthy, hene]
  have hjoin : joinSpace ["", "<" ++ e ++ ">"]
      = "" ++ " " ++ ("<" ++ e ++ ">") := rfl
  simp only [authorDisplay, he, ht, if_true, Option.getD_some, ha,
    List.singleton_append, hjoin, String.empty_append, h1, if_neg hne]

/-- C6: for a commit with non-empty `author` and empty (or absent)
`author_email`, the displayed author string is `author` exactly, with
nothing appended. -/
theorem authorDisplay_author_only (commit : Commit) (a : String)
    (ha : commit.author = some a) (hane : a ≠ "")
    (he : commit.author_email.getD "" = "") :
    authorDisplay commit = a := by
  have ht := jsTruthy_eq_false commit.author_email he
  simp [authorDisplay, joinSpace, ht, ha, hane]

/-- C7: the displayed date is the literal placeholder when `date` is empty
or absent, and otherwise is the `date` field verbatim. -/
theorem dateDisplay_verbatim_or_unknown (commit : Commit) :
    ((commit.date = none ∨ commit.date = some "") →
        dateDisplay commit = UNKNOWN)
      ∧ (∀ d, commit.date = some d → d ≠ "" → dateDisplay commit = d) := by
  constructor
  · intro h
    apply dateDisplay_unknown_aux
    rcases h with h | h <;> simp [h]
  · intro d hd hne
    simp [dateDisplay, jsTruthy, hd, hne]

/-- C8: the displayed ID is the `node` field verbatim, whatever the other
fields hold; an empty `node` is shown as the empty string, never as the
placeholder. -/
theorem render_id_verbatim (commit : Commit) :
    (render commit).idText = commit.node := rfl

/-- C9: `render` is a total function on all commit records (the embedding
has no failure branch), and missing fields degrade gracefully: absent or
empty author data displays as the placeholder, an absent or empty date
displays as the placeholder, and an absent message renders as the empty
textarea. -/
theorem render_tolerates_missing_fields (commit : Commit) :
    ((commit.author.getD "" = "" ∧ commit.author_email.getD "" = "") →
        (render commit).authorText = UNKNOWN)
      ∧ (commit.date.getD "" = "" → (render commit).dateText = UNKNOWN)
      ∧ (commit.message = none → (render commit).messageText = "") := by
  refine ⟨?_, ?_, ?_⟩
  · intro h
    exact authorDisplay_unknown_aux commit h.1 h.2
  · intro h
    exact dateDisplay_unknown_aux commit h
  · intro h
    simp [render, h]

/-- C10: rendering is deterministic and stateless: the displayed values are
functions of the commit record alone, so any two renders over equal commit
records display identical ID, author, date and message values. -/
theorem render_deterministic (c₁ c₂ : Commit) (h : c₁ = c₂) :
    (render c₁).idText = (render c₂).idText
      ∧ (render c₁).authorText = (render c₂).authorText
      ∧ (render c₁).dateText = (render c₂).dateText
      ∧ (render c₁).messageText = (render c₂).messageText := by
  rw [h]
  exact ⟨rfl, rfl, rfl, rfl⟩

/-- A fully populated sample commit, used by concrete witnesses. -/
def commitFull : Commit :=
  { node := "abc123"
    author := some "Alice"
    author_email := some "alice@example.com"
    date := some "2014-01-01"
    message := some "fix bug" }

/-- A sample commit with every optional field absent. -/
def commitBare : Commit :=
  { node := "abc123"
    author := none
    author_email := none
    date := none
    message := none }

/-- A sample commit with empty author and absent email. -/
def commitEmptyAuthor : Commit :=
  { node := "abc123"
    author := some ""
    author_email := none
    date := none
    message := none }

/-- A sample commit with absent author and a non-empty email. -/
def commitEmailOnly : Commit :=
  { node := "abc123"
    author := none
    author_email := some "alice@example.com"
    date := none
    message := none }

/-- A sample commit with a non-empty author and an empty email. -/
def commitAuthorOnly : Commit :=
  { node := "abc123"
    author := some "Alice"
    author_email := some ""
    date := none
    message := none }

/-- Witness for C3 at a concrete commit. -/
theorem authorDisplay_author_and_email_witness :
    authorDisplay commitFull
      = "Alice" ++ " <" ++ "alice@example.com" ++ ">" :=
  authorDisplay_author_and_email commitFull "Alice" "alice@example.com" rfl
    (by decide) rfl (by decide)

/-- Witness for C4 at a concrete commit. -/
theorem authorDisplay_unknown_witness :
    authorDisplay commitEmptyAuthor = UNKNOWN :=
  authorDisplay_unknown commitEmptyAuthor rfl rfl

/-- Witness for C5 at a concrete commit. -/
theorem authorDisplay_email_only_witness :
    authorDisplay commitEmailOnly = " <" ++ "alice@example.com" ++ ">"
      ∧ (" <" ++ "alice@example.com" ++ ">" : String) ≠ "" :=
  authorDisplay_email_only commitEmailOnly "alice@example.com" rfl rfl
    (by decide)

/-- Witness for C6 at a concrete commit. -/
theorem authorDisplay_author_only_witness :
    authorDisplay commitAuthorOnly = "Alice" :=
  authorDisplay_author_only commitAuthorOnly "Alice" rfl (by decide) rfl

/-- Witness for C7 at concrete commits: an absent date displays as the
placeholder and a non-empty date displays verbatim. -/
theorem dateDisplay_verbatim_or_unknown_witness :
    dateDisplay commitBare = UNKNOWN
      ∧ dateDisplay commitFull = "2014-01-01" :=
  ⟨(dateDisplay_verbatim_or_unknown commitBare).1 (Or.inl rfl),
    (dateDisplay_verbatim_or_unknown commitFull).2 "2014-01-01" rfl
      (by decide)⟩

/-- Witness for C9 at the commit with every optional field absent. -/
theorem render_tolerates_missing_fields_witness :
    (render commitBare).authorText = UNKNOWN
      ∧ (render commitBare).dateText = UNKNOWN
      ∧ (render commitBare).messageText = "" :=
  ⟨(render_tolerates_missing_fields commitBare).1 ⟨rfl, rfl⟩,
    (render_tolerates_missing_fields commitBare).2.1 rfl,
    (render_tolerates_missing_fields commitBare).2.2 rfl⟩

/-- Witness for C10 at a concrete commit rendered twice. -/
theorem render_deterministic_witness :
    (render commitFull).idText = (render commitFull).idText
      ∧ (render commitFull).authorText = (render commitFull).authorText
      ∧ (render commitFull).dateText = (render commitFull).dateText
      ∧ (render commitFull).messageText = (render commitFull).messageText :=
  render_deterministic commitFull commitFull rfl

end EditableCommit
